import Mathlib

/-!
Shallow embedding of the Instance Lifecycle & Messaging Orchestrator of the
`bumbbe` repository (Django + Node bridge), together with theorems settling
the frozen claims C1–C10 about its natural-language specification.

Python strings are modelled as `List Char` where character-level behaviour
matters (`ChatbotEngine._validate_name`) and as Lean `String` elsewhere;
`None`-able values are `Option`; Python truthiness of strings is made
explicit via `truthyS`.
-/

namespace Bumbbe

/-! ### Python-style string helpers -/

/-- Truthiness of an optional string: `None` and `""` are falsy. -/
def truthyS (s : Option String) : Bool :=
  match s with
  | none => false
  | some t => t ≠ ""

/-- `a or b` on optional strings, with Python truthiness. -/
def pyOrS (a b : Option String) : Option String :=
  if truthyS a then a else b

/-- Whitespace characters removed by Python's `str.strip()`. -/
def pyWhitespace (c : Char) : Bool :=
  c = ' ' || c = '\t' || c = '\n' || c = '\r' || c = '\x0b' || c = '\x0c'

/-- `str.strip()`: drop whitespace from both ends. -/
def pyStrip (s : List Char) : List Char :=
  ((s.dropWhile pyWhitespace).reverse.dropWhile pyWhitespace).reverse

/-- `str.lower()` on one character, for the ASCII and Latin-1 letters the
name validator deals with. -/
def pyLowerChar (c : Char) : Char :=
  if 'A' ≤ c && c ≤ 'Z' then Char.ofNat (c.toNat + 32)
  else if 'À' ≤ c && c ≤ 'Þ' && c ≠ '×' then Char.ofNat (c.toNat + 32)
  else c

/-- `str.lower()`. -/
def pyLower (s : List Char) : List Char := s.map pyLowerChar

/-- Does `hay` start with `needle`? -/
def startsWithL : List Char → List Char → Bool
  | _, [] => true
  | [], _ :: _ => false
  | a :: as, b :: bs => a == b && startsWithL as bs

/-- Python's `needle in hay` substring test. -/
def containsSub : List Char → List Char → Bool
  | [], needle => needle == []
  | hay@(_ :: t), needle => startsWithL hay needle || containsSub t needle

/-! ### `ChatbotEngine._validate_name` (src/chatbot/engine.py)

The regex is `[A-Za-zÀ-ÖØ-öø-ÿ][A-Za-zÀ-ÖØ-öø-ÿ'’\- ]{0,78}`, used with
`re.fullmatch`. -/

/-- Character class of the first regex position: the extended Latin letter
ranges `A-Z a-z À-Ö Ø-ö ø-ÿ`. -/
def nameLetter (c : Char) : Bool :=
  ('A' ≤ c && c ≤ 'Z') || ('a' ≤ c && c ≤ 'z') ||
  ('À' ≤ c && c ≤ 'Ö') || ('Ø' ≤ c && c ≤ 'ö') || ('ø' ≤ c && c ≤ 'ÿ')

/-- Character class of the remaining regex positions: letters plus
apostrophes, hyphen and space. -/
def nameTailChar (c : Char) : Bool :=
  nameLetter c || c = '\'' || c = '’' || c = '-' || c = ' '

/-- `re.fullmatch` of the name regex: one leading letter followed by at most
78 characters of the extended class. -/
def nameRegexFullmatch (n : List Char) : Bool :=
  match n with
  | [] => false
  | c :: rest => nameLetter c && rest.length ≤ 78 && rest.all nameTailChar

/-- Substrings whose presence in the lowercased name rejects it. -/
def nameBannedSubs : List (List Char) :=
  ["http://".data, "https://".data, "@".data, "s.whatsapp.net".data]

/-- Embedding of `ChatbotEngine._validate_name`. `none` models `name=None`;
the `if not name` guard also rejects the empty string. -/
def validate_name (name : Option (List Char)) : Bool :=
  match name with
  | none => false
  | some s =>
    if s.isEmpty then false
    else
      let n := pyStrip s
      if n.length < 2 || n.length > 80 then false
      else if nameBannedSubs.any (fun x => containsSub (pyLower n) x) then false
      else nameRegexFullmatch n

/-- The acceptance predicate exactly as claim C7 words it: 2 to 80
characters, only letters / spaces / apostrophes / hyphens, and no
occurrence of `http`, `@`, or `s.whatsapp.net`. -/
def specNameAccepts (n : List Char) : Bool :=
  2 ≤ n.length && n.length ≤ 80 && n.all nameTailChar &&
  !containsSub (pyLower n) "http".data &&
  !containsSub (pyLower n) "@".data &&
  !containsSub (pyLower n) "s.whatsapp.net".data

/-- The amended acceptance predicate: after trimming surrounding whitespace
the name must have 2 to 79 characters, begin with a letter, use only
letters / spaces / apostrophes / hyphens afterwards, and its lowercase form
must contain none of `http://`, `https://`, `@`, `s.whatsapp.net`. -/
def amendedNameAccepts (s : List Char) : Bool :=
  let n := pyStrip s
  (2 ≤ n.length && n.length ≤ 79) &&
  !(nameBannedSubs.any (fun x => containsSub (pyLower n) x)) &&
  (match n with
   | [] => false
   | c :: rest => nameLetter c && rest.all nameTailChar)

/-! ### `NodeBridge._request` (src/fillow/services.py)

The client performs a single `requests.request` call inside one
`try/except`; HTTP status ≥ 400 yields `(False, body)`, transport errors
yield `(False, {"error": ...})`, success yields `(True, body)`. -/

/-- A parsed Bridge response body; only the `error` field is inspected by
the callers modelled here, the rest is opaque. -/
structure NodeBody where
  error : Option String := none
  rest : String := ""
deriving DecidableEq, Repr

/-- Outcome of one transport-level attempt against the Bridge. -/
inductive TransportOutcome : Type where
  | httpReply (status : Nat) (body : NodeBody)
  | timeout
  | connError
deriving DecidableEq, Repr

/-- Whether an attempt failed at the transport level (connection error or
timeout). -/
def isTransportFailure : TransportOutcome → Bool
  | .httpReply _ _ => false
  | .timeout => true
  | .connError => true

/-- What `_request` turns one transport outcome into. -/
def requestOutcomeResult : TransportOutcome → Bool × NodeBody
  | .httpReply status body => if 400 ≤ status then (false, body) else (true, body)
  | .timeout => (false, { error := some "Timeout no servidor Node." })
  | .connError => (false, { error := some "Node server unreachable" })

/-- Embedding of `NodeBridge._request` over an oracle of successive
transport outcomes. The source performs exactly one attempt (there is no
retry loop), so only `attempts 0` is consumed; the second component records
how many transport attempts were made. -/
def nodeRequest (attempts : Nat → TransportOutcome) : (Bool × NodeBody) × Nat :=
  (requestOutcomeResult (attempts 0), 1)

/-- Modelled from the spec: "On transport failure, retry up to 3 attempts
with linear backoff 0.6 × attempt seconds (Bridge-side non-media calls
only)". Used only to exhibit the behaviour claim C6 asserts; the second
component again counts attempts made. -/
def specRetryRequest (attempts : Nat → TransportOutcome) : (Bool × NodeBody) × Nat :=
  if !isTransportFailure (attempts 0) then (requestOutcomeResult (attempts 0), 1)
  else if !isTransportFailure (attempts 1) then (requestOutcomeResult (attempts 1), 2)
  else (requestOutcomeResult (attempts 2), 3)

/-! ### Self-heal callers (src/chatbot/engine.py, src/fillow/views.py)

`_send_text` and `send_test_message_view` unpack `success, resp` from
`NodeBridge.send_message` and, on `ok=false` with an `"ACESSO NEGADO"`
error body, run `sync_instance_token` once and retry once.
`_safe_request` instead binds the whole `(ok, body)` pair returned by
`NodeBridge._request` to `resp` and then tests `isinstance(resp, dict)`,
which is `False` for a pair. -/

/-- `"ACESSO NEGADO" in str(resp.get("error", ""))`. -/
def bodyHasDenied (b : NodeBody) : Bool :=
  containsSub (b.error.getD "").data "ACESSO NEGADO".data

/-- Oracle for one outer engine/view operation: the reply to the first
Bridge call, the reply to the (at most one) retry, and whether
`sync_instance_token` would succeed. -/
structure BridgeEnv where
  reply1 : Bool × NodeBody
  reply2 : Bool × NodeBody
  syncResult : Bool
deriving DecidableEq, Repr

/-- Observable trace of one outer operation: the `ok` the caller reports,
how often the token self-heal routine ran, and how many Bridge requests
were issued. -/
structure CallTrace where
  ok : Bool
  syncCalls : Nat
  requestCalls : Nat
deriving DecidableEq, Repr

/-- Embedding of `ChatbotEngine._send_text`: unpacks `(success, resp)`,
self-heals once and retries once when the body carries the marker. -/
def sendTextModel (env : BridgeEnv) : CallTrace :=
  let success := env.reply1.1
  let resp := env.reply1.2
  if !success && bodyHasDenied resp then
    if env.syncResult then
      { ok := env.reply2.1, syncCalls := 1, requestCalls := 2 }
    else
      { ok := success, syncCalls := 1, requestCalls := 1 }
  else { ok := success, syncCalls := 0, requestCalls := 1 }

/-- Embedding of `send_test_message_view`'s send/self-heal section (after a
token is known): identical retry discipline to `_send_text`, except that
the retry additionally requires the healed token to be non-empty. -/
def sendTestViewModel (env : BridgeEnv) (tokenAfterSync : Option String) : CallTrace :=
  let success := env.reply1.1
  let resp := env.reply1.2
  if !success && bodyHasDenied resp then
    if env.syncResult && truthyS tokenAfterSync then
      { ok := env.reply2.1, syncCalls := 1, requestCalls := 2 }
    else
      { ok := success, syncCalls := 1, requestCalls := 1 }
  else { ok := success, syncCalls := 0, requestCalls := 1 }

/-- `isinstance(resp, dict)` where `resp` is the `(ok, body)` pair returned
by `NodeBridge._request`: a tuple is never a dict. -/
def isinstanceDictPair (_resp : Bool × NodeBody) : Bool := false

/-- Embedding of `ChatbotEngine._safe_request` (non-raising path of
`_request`, which returns a pair in every branch). `resp` is the bound
pair; the guard `isinstance(resp, dict) and "ACESSO NEGADO" in
str(resp.get("error", ""))` can never hold, so the self-heal branch is
dead code and the wrapper returns `True, resp` unconditionally. -/
def safeRequestModel (env : BridgeEnv) : CallTrace :=
  let resp := env.reply1
  if isinstanceDictPair resp && bodyHasDenied resp.2 then
    if env.syncResult then
      { ok := true, syncCalls := 1, requestCalls := 2 }
    else
      { ok := false, syncCalls := 1, requestCalls := 1 }
  else { ok := true, syncCalls := 0, requestCalls := 1 }

/-- A Bridge reply that denies access: `ok=false` with the literal marker
in the error field. -/
def deniedBody : NodeBody := { error := some "ACESSO NEGADO: token inválido" }

/-- Oracle in which the first call is denied, the self-heal would succeed
and the retried call would succeed. -/
def deniedEnv : BridgeEnv :=
  { reply1 := (false, deniedBody)
    reply2 := (true, { error := none })
    syncResult := true }

/-! ### Instance rows and `Instance.save` (src/fillow/models.py)

`Instance.save` forces `status = 'DISCONNECTED'` whenever the owner is not
plan-valid, then delegates to Django's save (which honours
`update_fields`). -/

/-- A persisted `Instance` row; `ownerPlanValid` caches
`owner.is_plan_valid` for the row's owner. -/
structure InstanceRow where
  id : Nat
  session_id : String
  token : Option String := none
  status : String := "CREATED"
  phone_connected : Option String := none
  ownerPlanValid : Bool := true
deriving DecidableEq, Repr

/-- The mutable fields named in `update_fields` lists. -/
inductive InstField : Type where
  | token
  | status
  | phone
deriving DecidableEq, Repr

/-- The in-memory effect of `Instance.save`'s override before persisting. -/
def instanceSaveMem (i : InstanceRow) : InstanceRow :=
  if i.ownerPlanValid then i else { i with status := "DISCONNECTED" }

/-- Copy one named field from the in-memory object to the stored row. -/
def copyField (db mem : InstanceRow) : InstField → InstanceRow
  | .token => { db with token := mem.token }
  | .status => { db with status := mem.status }
  | .phone => { db with phone_connected := mem.phone_connected }

/-- `instance.save(update_fields=fields)` as seen by the database: the
save override runs on the in-memory object, then exactly the listed fields
are persisted onto the stored row. -/
def djangoSavePersist (db mem : InstanceRow) (fields : List InstField) : InstanceRow :=
  fields.foldl (fun acc f => copyField acc (instanceSaveMem mem) f) db

/-! ### `sync_instance_token` (src/fillow/services.py) -/

/-- One entry of the Bridge's `GET /sessions` list. `phoneNumber = none`
models an absent or null key. -/
structure SessionEntry where
  sessionId : Option String := none
  token : Option String := none
  status : Option String := none
  phoneNumber : Option String := none
deriving DecidableEq, Repr

/-- Embedding of `_map_node_status_to_django`. -/
def mapNodeStatusToDjango (v : Option String) : Option String :=
  match v with
  | none => none
  | some s =>
    if s = "" then none
    else
      let sv := String.mk (pyStrip s.data)
      if sv = "open" then some "CONNECTED"
      else if sv = "close" then some "DISCONNECTED"
      else some sv

/-- Result of one `sync_instance_token` call: the returned boolean, the
in-memory instance object afterwards, and the persisted row afterwards
(the persisted row starts out equal to the argument). -/
structure SyncOutcome where
  ret : Bool
  mem : InstanceRow
  db : InstanceRow
deriving DecidableEq, Repr

/-- Embedding of `sync_instance_token`. `listOk` and `sessions` model the
`(ok, data)` pair from `list_sessions`; `sessions = none` models a
response that is not a JSON list. -/
def sync_instance_token (inst : InstanceRow) (listOk : Bool)
    (sessions : Option (List SessionEntry)) : SyncOutcome :=
  if !listOk then ⟨false, inst, inst⟩
  else
    match sessions with
    | none => ⟨false, inst, inst⟩
    | some data =>
      if inst.session_id = "" then ⟨false, inst, inst⟩
      else
        match data.find? (fun s => s.sessionId == some inst.session_id) with
        | none => ⟨false, inst, inst⟩
        | some target =>
          let newToken := target.token
          let tokDiff := truthyS newToken && newToken != inst.token
          let mem1 := if tokDiff then { inst with token := newToken } else inst
          let nodeStatus := mapNodeStatusToDjango target.status
          let statDiff := truthyS nodeStatus && nodeStatus != some mem1.status
          let mem2 :=
            if statDiff then { mem1 with status := nodeStatus.getD mem1.status } else mem1
          let phoneDiff :=
            match target.phoneNumber with
            | none => false
            | some p => some p != mem2.phone_connected
          let mem3 :=
            match target.phoneNumber with
            | none => mem2
            | some p =>
              if some p != mem2.phone_connected then
                { mem2 with phone_connected := if p = "" then none else some p }
              else mem2
          let fields :=
            (if tokDiff then [InstField.token] else []) ++
            (if statDiff then [InstField.status] else []) ++
            (if phoneDiff then [InstField.phone] else [])
          if fields.isEmpty then ⟨truthyS newToken, mem3, inst⟩
          else ⟨truthyS newToken, instanceSaveMem mem3, djangoSavePersist inst mem3 fields⟩

/-- The token the Bridge currently reports for a session id: the `token`
field of the first session-list entry whose `sessionId` matches. -/
def bridgeTokenFor (data : List SessionEntry) (sid : String) : Option String :=
  (data.find? (fun s => s.sessionId == some sid)).bind (·.token)

/-! ### Wire messages and `unwrap_message` (src/fillow/views.py)

A wire message object, restricted to the keys the receiver reads. Each
wrapper key (`ephemeralMessage`, `viewOnceMessage`, `viewOnceMessageV2`,
`documentWithCaptionMessage`, `editedMessage`) may be absent, present with
an absent/null inner `message`, or present with an inner message object.
Media keys are modelled as present-with-caption. -/

mutual
inductive WireMsg : Type where
  | mk :
    (ephemeralMessage viewOnceMessage viewOnceMessageV2
       documentWithCaptionMessage editedMessage : WrapSlot) →
    (conversation extendedTextMessage_text : Option String) →
    (imageMessage videoMessage documentMessage : Option (Option String)) →
    (audioMessage : Bool) → WireMsg

inductive WrapSlot : Type where
  | absent : WrapSlot
  | nullInner : WrapSlot
  | inner : WireMsg → WrapSlot
end

/-- The empty dict `{}` produced by `unwrap_message` on falsy input. -/
def emptyWire : WireMsg :=
  .mk .absent .absent .absent .absent .absent none none none none none false

/-- Embedding of the receiver's `unwrap_message`: wrappers are tested in
source order; the first present one is descended into (a missing inner
`message` becomes `{}`). -/
def WireMsg.unwrap : WireMsg → WireMsg
  | .mk (.inner m) _ _ _ _ _ _ _ _ _ _ => m.unwrap
  | .mk .nullInner _ _ _ _ _ _ _ _ _ _ => emptyWire
  | .mk .absent (.inner m) _ _ _ _ _ _ _ _ _ => m.unwrap
  | .mk .absent .nullInner _ _ _ _ _ _ _ _ _ => emptyWire
  | .mk .absent .absent (.inner m) _ _ _ _ _ _ _ _ => m.unwrap
  | .mk .absent .absent .nullInner _ _ _ _ _ _ _ _ => emptyWire
  | .mk .absent .absent .absent (.inner m) _ _ _ _ _ _ _ => m.unwrap
  | .mk .absent .absent .absent .nullInner _ _ _ _ _ _ _ => emptyWire
  | .mk .absent .absent .absent .absent (.inner m) _ _ _ _ _ _ => m.unwrap
  | .mk .absent .absent .absent .absent .nullInner _ _ _ _ _ _ => emptyWire
  | m => m

/-- `real_msg.get("conversation")`. -/
def WireMsg.conversationF : WireMsg → Option String
  | .mk _ _ _ _ _ c _ _ _ _ _ => c

/-- `real_msg.get("extendedTextMessage", {}).get("text")`. -/
def WireMsg.extTextF : WireMsg → Option String
  | .mk _ _ _ _ _ _ t _ _ _ _ => t

/-- `real_msg.get("imageMessage", {}).get("caption")` plus key presence. -/
def WireMsg.imageF : WireMsg → Option (Option String)
  | .mk _ _ _ _ _ _ _ i _ _ _ => i

/-- `videoMessage` slot. -/
def WireMsg.videoF : WireMsg → Option (Option String)
  | .mk _ _ _ _ _ _ _ _ v _ _ => v

/-- `documentMessage` slot. -/
def WireMsg.documentF : WireMsg → Option (Option String)
  | .mk _ _ _ _ _ _ _ _ _ d _ => d

/-- `"audioMessage" in real_msg`. -/
def WireMsg.audioF : WireMsg → Bool
  | .mk _ _ _ _ _ _ _ _ _ _ a => a

/-! ### Webhook payload and receiver state -/

/-- `data.me`: modelled as present only when the dict is truthy. -/
structure MeObj where
  id : Option String := none
deriving DecidableEq, Repr

/-- `data.key`. -/
structure MsgKey where
  remoteJid : Option String := none
  fromMe : Option Bool := none
  id : Option String := none
deriving DecidableEq, Repr

/-- Fields of the event's `data` dict read by the receiver. -/
structure WebhookData where
  status : Option String := none
  qrCode : Option String := none
  qr : Option String := none
  token : Option String := none
  phoneNumber : Option String := none
  sessionId : Option String := none
  content : Option String := none
  pushName : Option String := none
  me : Option MeObj := none
  key : Option MsgKey := none
  message : Option WireMsg := none

/-- The parsed webhook body `{type, sessionId, data}`. -/
structure WebhookPayload where
  type : Option String := none
  sessionId : Option String := none
  data : Option WebhookData := none

/-- A persisted `Message` row (fields set by the receiver). -/
structure MessageRow where
  instance_id : Nat
  remote_jid : Option String := none
  from_me : Bool := false
  push_name : String := ""
  content : String := ""
  message_type : String := "text"
  wamid : Option String := none
deriving DecidableEq, Repr

/-- No two rows share a (present) `wamid`: the uniqueness invariant the
`wamid` column's `unique=True` constraint expresses. -/
def noDupWamid : List MessageRow → Bool
  | [] => true
  | m :: rest =>
    (match m.wamid with
     | none => true
     | some w => !(rest.any (fun x => x.wamid == some w))) && noDupWamid rest

/-- Persistent state touched by the receiver. -/
structure WebhookState where
  instances : List InstanceRow := []
  messages : List MessageRow := []
deriving DecidableEq, Repr

/-- An HTTP response `(status code, status/error tag)`. -/
structure HttpResp where
  code : Nat
  tag : String
deriving DecidableEq, Repr

/-- `jid.split(":")[0]`. -/
def splitColonHead (s : String) : String :=
  String.mk (s.data.takeWhile (fun c => c ≠ ':'))

/-- The message-event branch of the receiver: computes content and type
from the unwrapped message and appends a `Message` row when a fresh truthy
`wamid` is present. -/
def processMessageEvent (instId : Nat) (data : WebhookData)
    (msgs : List MessageRow) : List MessageRow :=
  let key := data.key.getD {}
  let remoteJid := key.remoteJid
  let fromMe := key.fromMe.getD false
  let wamid := key.id
  let pushName := data.pushName.getD ""
  let realMsg := (data.message.getD emptyWire).unwrap
  let messageContent :=
    (pyOrS realMsg.conversationF
      (pyOrS realMsg.extTextF
        (pyOrS (realMsg.imageF.getD none)
          (pyOrS (realMsg.videoF.getD none)
            (pyOrS (realMsg.documentF.getD none) data.content))))).getD ""
  let msgType :=
    if realMsg.imageF.isSome then "image"
    else if realMsg.videoF.isSome then "video"
    else if realMsg.audioF then "audio"
    else if realMsg.documentF.isSome then "document"
    else "text"
  if truthyS wamid && !(msgs.any (fun m => m.wamid == wamid)) then
    msgs ++ [{ instance_id := instId, remote_jid := remoteJid, from_me := fromMe,
               push_name := pushName, content := messageContent,
               message_type := msgType, wamid := wamid }]
  else msgs

/-- The session/connection/qr branch of the receiver: mutates the found
instance as the source does and returns the object to be saved. The
self-heal inside reuses `sync_instance_token`; its intermediate partial
save is overwritten by the branch's final full `instance.save()`, so the
in-memory object is what ends up stored. -/
def processStatusEvent (inst0 : InstanceRow) (data : WebhookData)
    (bridgeOk : Bool) (sessions : Option (List SessionEntry)) : InstanceRow :=
  let statusNode := data.status
  let qrCode := pyOrS data.qrCode data.qr
  let token := data.token
  let i1 :=
    match statusNode with
    | some s =>
      if s ≠ "" then
        { inst0 with status :=
            if s = "open" then "CONNECTED"
            else if s = "close" then "DISCONNECTED"
            else s }
      else inst0
    | none => inst0
  let i2 :=
    match data.me with
    | some m =>
      let jid := m.id.getD ""
      if jid ≠ "" then { i1 with phone_connected := some (splitColonHead jid) } else i1
    | none =>
      if truthyS data.phoneNumber then { i1 with phone_connected := data.phoneNumber }
      else i1
  let i3 := if truthyS token then { i2 with token := token } else i2
  let i4 :=
    if !truthyS token && !truthyS i3.token &&
        (i3.status == "CONNECTED" || statusNode == some "open" ||
         statusNode == some "CONNECTED") then
      (sync_instance_token i3 bridgeOk sessions).mem
    else i3
  let i5 :=
    if truthyS qrCode && i4.status != "CONNECTED" then { i4 with status := "QR_SCANNED" }
    else i4
  instanceSaveMem i5

/-- Embedding of `InternalWebhookReceiver.post`. `apiKey` is the
`x-api-key` header, `expectedKey` the configured secret, `payload = none`
models an unparsable JSON body; `bridgeOk`/`sessions` feed the self-heal
path; the client fan-out performs no state change and is omitted from the
observable result. -/
def webhookPost (expectedKey : String) (apiKey : Option String)
    (payload : Option WebhookPayload) (bridgeOk : Bool)
    (sessions : Option (List SessionEntry)) (st : WebhookState) :
    HttpResp × WebhookState :=
  if apiKey != some expectedKey then (⟨401, "Unauthorized"⟩, st)
  else
    match payload with
    | none => (⟨400, "Invalid JSON"⟩, st)
    | some p =>
      let data := p.data.getD {}
      let sessionId := pyOrS p.sessionId data.sessionId
      if !truthyS sessionId then (⟨400, "ignored:missing_session_id"⟩, st)
      else
        let sid := sessionId.getD ""
        match st.instances.find? (fun r => r.session_id == sid) with
        | none => (⟨404, "ignored:instance_not_found"⟩, st)
        | some inst0 =>
          if !inst0.ownerPlanValid then (⟨200, "plan_expired_ignored"⟩, st)
          else
            let st1 :=
              if p.type == some "session-update" || p.type == some "connection.update" ||
                  p.type == some "qr" then
                let saved := processStatusEvent inst0 data bridgeOk sessions
                { st with instances :=
                    st.instances.map (fun r => if r.id == saved.id then saved else r) }
              else st
            let st2 :=
              if p.type == some "message" then
                { st1 with messages := processMessageEvent inst0.id data st1.messages }
              else st1
            (⟨200, "processed"⟩, st2)

/-! ### Chatbot quota checks (src/chatbot/models.py) and the engine's
gate prefix (src/chatbot/engine.py, `process_message`) -/

/-- The fields of a `datetime` the quota check reads (`date()`, `month`,
`year`). -/
structure PyDate where
  year : Int
  month : Nat
  day : Nat
deriving DecidableEq, Repr

/-- `ChatbotPlan` limits used by `check_limit`. -/
structure ChatbotPlanM where
  periodicity : String
  max_conversations : Nat
deriving DecidableEq, Repr

/-- `UserSubscription`. -/
structure SubscriptionM where
  plan : Option ChatbotPlanM := none
  active : Bool := true
deriving DecidableEq, Repr

/-- The `Chatbot` fields read by the gates. -/
structure ChatbotM where
  active : Bool := true
  trigger_on_groups : Bool := false
  subscription : Option SubscriptionM := none
  conversations_count : Int := 0
  last_reset_date : PyDate
  current_tokens_used : Int := 0
  token_usage_type : String := "infinity"
  token_limit : Int := 0
deriving DecidableEq, Repr

/-- The `should_reset` computation of `Chatbot.check_limit`: the `if/elif`
chain over the plan's periodicity (`last.date() != now.date()` compared as
the `(year, month, day)` triple). -/
def shouldResetFlag (periodicity : String) (last now : PyDate) : Bool :=
  if periodicity == "daily" then
    !(last.year == now.year && last.month == now.month && last.day == now.day)
  else if periodicity == "monthly" then
    last.month != now.month || last.year != now.year
  else if periodicity == "quarterly" then
    ((now.month - 1) / 3 + 1) != ((last.month - 1) / 3 + 1) || last.year != now.year
  else if periodicity == "semiannual" then
    (if now.month ≤ 6 then (1 : Nat) else 2) != (if last.month ≤ 6 then (1 : Nat) else 2) ||
      last.year != now.year
  else if periodicity == "yearly" then
    last.year != now.year
  else false

/-- Embedding of `Chatbot.check_limit`: returns the boolean verdict and
the (possibly reset) chatbot row. -/
def check_limit (cb : ChatbotM) (now : PyDate) : Bool × ChatbotM :=
  match cb.subscription with
  | none => (false, cb)
  | some sub =>
    match sub.plan with
    | none => (false, cb)
    | some plan =>
      if !sub.active then (false, cb)
      else if plan.periodicity == "infinity" then (true, cb)
      else
        let shouldReset := shouldResetFlag plan.periodicity cb.last_reset_date now
        let cb1 :=
          if shouldReset then { cb with conversations_count := 0, last_reset_date := now }
          else cb
        (decide (cb1.conversations_count < (plan.max_conversations : Int)), cb1)

/-- Embedding of `Chatbot.check_token_limit`: `token_limit = 0` is treated
as unlimited. -/
def check_token_limit (cb : ChatbotM) : Bool :=
  if cb.token_usage_type == "infinity" then true
  else if cb.token_limit > 0 && cb.current_tokens_used ≥ cb.token_limit then false
  else true

/-- Where the short-circuit prefix of `ChatbotEngine.process_message`
stops, if anywhere. `proceeds` means all four gates passed and the engine
goes on to the LLM call and outbound actions. -/
inductive GateOutcome : Type where
  | stoppedInactive
  | stoppedGroup
  | stoppedConversationLimit
  | stoppedTokenLimit
  | proceeds
deriving DecidableEq, Repr

/-- Embedding of the gate prefix of `ChatbotEngine.process_message`. -/
def processMessageGates (cb : ChatbotM) (now : PyDate) (isGroup : Bool) :
    GateOutcome × ChatbotM :=
  if !cb.active then (.stoppedInactive, cb)
  else if isGroup && !cb.trigger_on_groups then (.stoppedGroup, cb)
  else
    let r := check_limit cb now
    if !r.1 then (.stoppedConversationLimit, r.2)
    else if !check_token_limit r.2 then (.stoppedTokenLimit, r.2)
    else (.proceeds, r.2)

/-- The spec's calendar-bucket equality (claim C3's words): day / month /
quarter `(month-1)/3` / half-year / year, together with the year. -/
def specBucketEq (p : String) (a b : PyDate) : Bool :=
  if p = "daily" then a.year == b.year && a.month == b.month && a.day == b.day
  else if p = "monthly" then a.year == b.year && a.month == b.month
  else if p = "quarterly" then a.year == b.year && (a.month - 1) / 3 == (b.month - 1) / 3
  else if p = "semiannual" then
    a.year == b.year && ((a.month ≤ 6 : Bool) == (b.month ≤ 6 : Bool))
  else if p = "yearly" then a.year == b.year
  else true

/-- The wire id (`key.id`) of a message event's data, the dedup key. -/
def msgWamid (data : WebhookData) : Option String := (data.key.getD {}).id

/-- The `data` dict of the round-trip scenario: `{status: open, token: T}`. -/
def connOpenData (T : String) : WebhookData :=
  { status := some "open", token := some T }

/-- The webhook payload `connection.update {status: open, token: T}`. -/
def connOpenPayload (sid T : String) : WebhookPayload :=
  { type := some "connection.update", sessionId := some sid,
    data := some (connOpenData T) }

/-! ### Concrete inputs used by counterexamples and witnesses -/

/-- Concrete chatbot for the monthly-rollover scenario: counter 999, last
reset 2025-01-31, monthly plan with limit 1000. -/
def monthlyRolloverBot : ChatbotM :=
  { active := true
    trigger_on_groups := true
    subscription := some { plan := some { periodicity := "monthly", max_conversations := 1000 }, active := true }
    conversations_count := 999
    last_reset_date := ⟨2025, 1, 31⟩
    current_tokens_used := 0
    token_usage_type := "infinity"
    token_limit := 0 }

/-- A concrete instance whose token drifted. -/
def syncInst0 : InstanceRow :=
  { id := 1, session_id := "sess_a", token := some "T_OLD", status := "CONNECTED",
    phone_connected := none, ownerPlanValid := true }

/-- A concrete Bridge session list carrying a fresh token. -/
def syncData0 : List SessionEntry :=
  [{ sessionId := some "sess_a", token := some "T_NEW", status := some "open",
     phoneNumber := some "5511999999999" }]

/-- A plan-valid instance row for the webhook scenarios. -/
def whInstA : InstanceRow :=
  { id := 1, session_id := "sess_a", token := some "OLD", status := "CREATED",
    phone_connected := none, ownerPlanValid := true }

/-- An instance row owned by an expired tenant. -/
def whInstB : InstanceRow :=
  { id := 2, session_id := "sess_b", token := none, status := "CONNECTED",
    phone_connected := none, ownerPlanValid := false }

/-- State holding the plan-valid instance and no messages. -/
def whStateA : WebhookState := { instances := [whInstA], messages := [] }

/-- State holding the expired-tenant instance and no messages. -/
def whStateB : WebhookState := { instances := [whInstB], messages := [] }

/-- An inbound message event with wamid `WAMID1`. -/
def whMsgPayload : WebhookPayload :=
  { type := some "message", sessionId := some "sess_a",
    data := some { key := some { remoteJid := some "5511@s.whatsapp.net",
                                 fromMe := some false, id := some "WAMID1" } } }

/-- A `qr` event addressed to the expired tenant's session. -/
def whQrPayload : WebhookPayload :=
  { type := some "qr", sessionId := some "sess_b", data := none }

/-- Transport oracle whose first attempt times out and whose later
attempts would succeed. -/
def cexAttempts : Nat → TransportOutcome :=
  fun n => if n = 0 then .timeout else .httpReply 200 {}

/-- An 80-letter name. -/
def nameEighty : List Char := List.replicate 80 'a'

/-- A chatbot with a non-`infinity` token kind, `token_limit = 0`, a
positive token count, and an unrestricted conversation plan. -/
def tokenGateCexBot : ChatbotM :=
  { active := true
    trigger_on_groups := true
    subscription := some { plan := some { periodicity := "infinity", max_conversations := 1000 }, active := true }
    conversations_count := 0
    last_reset_date := ⟨2025, 1, 1⟩
    current_tokens_used := 5
    token_usage_type := "monthly"
    token_limit := 0 }

/-! ## Theorems -/

/-- C1: `ChatbotEngine._safe_request` binds the `(ok, body)` pair returned
by `NodeBridge._request` and then tests `isinstance(resp, dict)`, which is
false for a pair, so on an `ok=false` response whose error carries the
literal `"ACESSO NEGADO"` marker it performs no token self-heal and no
retry, and even reports the operation as ok — contradicting its own
docstring ("auto-cura se 403/ACESSO NEGADO"). The sibling `_send_text`
path, which unpacks the pair, does self-heal once and retry once on the
same input. -/
theorem safe_request_no_self_heal_on_denied :
    (safeRequestModel deniedEnv).syncCalls = 0 ∧
    (safeRequestModel deniedEnv).requestCalls = 1 ∧
    (safeRequestModel deniedEnv).ok = true ∧
    deniedEnv.reply1.1 = false ∧
    bodyHasDenied deniedEnv.reply1.2 = true ∧
    (sendTextModel deniedEnv).syncCalls = 1 ∧
    (sendTextModel deniedEnv).requestCalls = 2 ∧
    (sendTextModel deniedEnv).ok = true := by
  decide

/-- C6 counterexample: `NodeBridge._request` makes a single transport
attempt; when the first attempt times out it reports failure immediately,
whereas the claimed 3-attempt retry discipline (formalised from the spec's
words as `specRetryRequest`) would succeed on the second attempt. -/
theorem nodeRequest_no_transport_retry_cex :
    isTransportFailure (cexAttempts 0) = true ∧
    (nodeRequest cexAttempts).2 = 1 ∧
    (nodeRequest cexAttempts).1.1 = false ∧
    (specRetryRequest cexAttempts).1.1 = true ∧
    (specRetryRequest cexAttempts).2 = 2 := by
  decide

/-- C6 amended: for every non-media Bridge call, `NodeBridge._request`
makes exactly one transport attempt and surfaces a transport failure
(timeout or connection error) immediately as `ok=false` with the
corresponding error body, without retrying. -/
theorem nodeRequest_single_attempt (attempts : Nat → TransportOutcome) :
    (nodeRequest attempts).2 = 1 ∧
    (attempts 0 = .timeout →
      (nodeRequest attempts).1 = (false, { error := some "Timeout no servidor Node." })) ∧
    (attempts 0 = .connError →
      (nodeRequest attempts).1 = (false, { error := some "Node server unreachable" })) := by
  refine ⟨rfl, ?_, ?_⟩ <;> intro h <;> simp [nodeRequest, h, requestOutcomeResult]

/-- C6 amended, witness at the concrete timeout oracle. -/
theorem nodeRequest_single_attempt_witness :
    (nodeRequest cexAttempts).2 = 1 ∧
    (nodeRequest cexAttempts).1 = (false, { error := some "Timeout no servidor Node." }) :=
  ⟨(nodeRequest_single_attempt cexAttempts).1,
   (nodeRequest_single_attempt cexAttempts).2.1 rfl⟩

/-- C7 counterexample: the 80-letter name `aa…a` satisfies the claim's
acceptance predicate (2–80 characters, letters only, none of the banned
substrings) but `_validate_name` rejects it — the regex allows at most
1 + 78 = 79 characters. -/
theorem validate_name_eighty_cex :
    validate_name (some nameEighty) = false ∧ specNameAccepts nameEighty = true := by
  decide

/-- C8 counterexample: a chatbot with `token_usage_type ≠ "infinity"`,
`token_limit = 0` and `current_tokens_used ≥ token_limit` is NOT stopped:
`check_token_limit` returns true (the `token_limit > 0` guard treats 0 as
unlimited, as its help text documents) and the engine proceeds past all
gates. -/
theorem token_gate_zero_limit_cex :
    tokenGateCexBot.token_usage_type ≠ "infinity" ∧
    tokenGateCexBot.current_tokens_used ≥ tokenGateCexBot.token_limit ∧
    check_token_limit tokenGateCexBot = true ∧
    (processMessageGates tokenGateCexBot ⟨2025, 1, 2⟩ false).1 = .proceeds := by
  refine ⟨by decide, by decide, by decide, by decide⟩

/-- The state returned by `check_limit` is either the chatbot unchanged or
the chatbot with counter 0 and reset date `now`. -/
theorem check_limit_snd_cases (cb : ChatbotM) (now : PyDate) :
    (check_limit cb now).2 = cb ∨
    (check_limit cb now).2 = { cb with conversations_count := 0, last_reset_date := now } := by
  unfold check_limit
  dsimp only
  repeat' split
  all_goals first | exact Or.inl rfl | exact Or.inr rfl

/-- `check_limit` only ever touches the conversation counter and the reset
date; the token fields survive it. -/
theorem check_limit_preserves_token_fields (cb : ChatbotM) (now : PyDate) :
    (check_limit cb now).2.token_usage_type = cb.token_usage_type ∧
    (check_limit cb now).2.current_tokens_used = cb.current_tokens_used ∧
    (check_limit cb now).2.token_limit = cb.token_limit := by
  rcases check_limit_snd_cases cb now with h | h <;> rw [h] <;> exact ⟨rfl, rfl, rfl⟩

/-- C8 amended: whenever `token_usage_type ≠ "infinity"`, the token limit
is positive and `current_tokens_used ≥ token_limit`, `check_token_limit`
returns false and the engine's gate prefix never reaches the LLM call or
any outbound action; with `token_limit = 0` the gate never blocks. -/
theorem token_gate_stops_engine (cb : ChatbotM) (now : PyDate) (isGroup : Bool)
    (hkind : cb.token_usage_type ≠ "infinity")
    (hpos : 0 < cb.token_limit)
    (hused : cb.token_limit ≤ cb.current_tokens_used) :
    check_token_limit cb = false ∧
    (processMessageGates cb now isGroup).1 ≠ .proceeds := by
  have htok : check_token_limit cb = false := by
    simp [check_token_limit, hkind, hpos, hused]
  refine ⟨htok, ?_⟩
  have hpres := check_limit_preserves_token_fields cb now
  have htok2 : check_token_limit (check_limit cb now).2 = false := by
    unfold check_token_limit at htok ⊢
    rw [hpres.1, hpres.2.1, hpres.2.2]
    exact htok
  intro hp
  unfold processMessageGates at hp
  split at hp
  · simp at hp
  · split at hp
    · simp at hp
    · dsimp only at hp
      split at hp
      · simp at hp
      · split at hp
        · simp at hp
        · rename_i hc
          rw [htok2] at hc
          simp at hc

/-- C8 amended, witness: a chatbot over its positive token limit is
gated. -/
theorem token_gate_stops_engine_witness :
    check_token_limit { tokenGateCexBot with token_limit := 3 } = false ∧
    (processMessageGates { tokenGateCexBot with token_limit := 3 } ⟨2025, 1, 2⟩ false).1 ≠
      GateOutcome.proceeds :=
  token_gate_stops_engine { tokenGateCexBot with token_limit := 3 } ⟨2025, 1, 2⟩ false
    (by decide) (by decide) (by decide)

/-- C10: when the chatbot's owner has no chatbot subscription, or the
subscription has no plan, or it is inactive, `check_limit` returns false
whatever the stored counter, and the engine's gate prefix stops before any
LLM call or outbound message. -/
theorem missing_subscription_blocks_engine (cb : ChatbotM) (now : PyDate) (isGroup : Bool)
    (h : cb.subscription = none ∨
         ∃ sub, cb.subscription = some sub ∧ (sub.plan = none ∨ sub.active = false)) :
    (check_limit cb now).1 = false ∧
    (processMessageGates cb now isGroup).1 ≠ .proceeds := by
  have hlim : (check_limit cb now).1 = false := by
    rcases h with h | ⟨sub, hsub, hcase⟩
    · simp [check_limit, h]
    · rcases hcase with hplan | hact
      · simp [check_limit, hsub, hplan]
      · cases hp : sub.plan with
        | none => simp [check_limit, hsub, hp]
        | some plan => simp [check_limit, hsub, hp, hact]
  refine ⟨hlim, ?_⟩
  intro hp
  unfold processMessageGates at hp
  split at hp
  · simp at hp
  · split at hp
    · simp at hp
    · dsimp only at hp
      split at hp
      · simp at hp
      · rename_i hc
        rw [hlim] at hc
        simp at hc

/-- C10, witness: a chatbot with no subscription at all is blocked. -/
theorem missing_subscription_blocks_engine_witness :
    (check_limit { tokenGateCexBot with subscription := none } ⟨2025, 1, 2⟩).1 = false ∧
    (processMessageGates { tokenGateCexBot with subscription := none } ⟨2025, 1, 2⟩ false).1 ≠
      GateOutcome.proceeds :=
  missing_subscription_blocks_engine { tokenGateCexBot with subscription := none }
    ⟨2025, 1, 2⟩ false (Or.inl rfl)

/-- For the five finite periodicities, the code's `should_reset` chain is
exactly the negation of the spec's calendar-bucket equality. -/
theorem shouldResetFlag_eq_not_bucketEq (p : String) (last now : PyDate)
    (hp : p ∈ (["daily", "monthly", "quarterly", "semiannual", "yearly"] : List String)) :
    shouldResetFlag p last now = !specBucketEq p now last := by
  simp only [List.mem_cons, List.mem_singleton, List.not_mem_nil, or_false] at hp
  rcases hp with h | h | h | h | h <;> subst h <;>
    simp only [shouldResetFlag, specBucketEq, String.reduceBEq, String.reduceEq,
      reduceIte, Bool.false_eq_true, if_false, if_true] <;>
    rw [Bool.eq_iff_iff]
  · simp only [Bool.not_eq_true', Bool.and_eq_true, beq_iff_eq,
      Bool.and_eq_false_iff, beq_eq_false_iff_ne, ne_eq]
    omega
  · simp only [Bool.not_eq_true', Bool.or_eq_true, Bool.and_eq_true,
      bne_iff_ne, beq_iff_eq, Bool.and_eq_false_iff, beq_eq_false_iff_ne, ne_eq]
    omega
  · simp only [Bool.not_eq_true', Bool.or_eq_true, Bool.and_eq_true,
      bne_iff_ne, beq_iff_eq, Bool.and_eq_false_iff, beq_eq_false_iff_ne, ne_eq]
    omega
  · by_cases h1 : now.month ≤ 6 <;> by_cases h2 : last.month ≤ 6 <;>
      simp [h1, h2] <;> omega
  · simp only [Bool.not_eq_true', Bool.or_eq_true, bne_iff_ne, beq_iff_eq,
      beq_eq_false_iff_ne, ne_eq]
    omega

/-- C3: for the five finite periodicities, `check_limit` resets iff the
calendar bucket of `now` differs from that of `last_reset_date`; on reset
the counter becomes 0 and the reset date becomes `now`; and the verdict is
exactly "post-reset counter below the plan's conversation limit". -/
theorem check_limit_rollover (cb : ChatbotM) (now : PyDate) (sub : SubscriptionM)
    (plan : ChatbotPlanM) (hsub : cb.subscription = some sub) (hplan : sub.plan = some plan)
    (hact : sub.active = true)
    (hp : plan.periodicity ∈ (["daily", "monthly", "quarterly", "semiannual", "yearly"] : List String)) :
    (specBucketEq plan.periodicity now cb.last_reset_date = true → (check_limit cb now).2 = cb) ∧
    (specBucketEq plan.periodicity now cb.last_reset_date = false →
      (check_limit cb now).2.conversations_count = 0 ∧
      (check_limit cb now).2.last_reset_date = now) ∧
    (check_limit cb now).1 =
      decide ((check_limit cb now).2.conversations_count < (plan.max_conversations : Int)) := by
  have hinf : (plan.periodicity == "infinity") = false := by
    simp only [List.mem_cons, List.mem_singleton, List.not_mem_nil, or_false] at hp
    rcases hp with h | h | h | h | h <;> simp [h]
  have hs := shouldResetFlag_eq_not_bucketEq plan.periodicity cb.last_reset_date now hp
  simp only [check_limit, hsub, hplan, hact, Bool.not_true, Bool.false_eq_true, if_false,
    hinf, hs]
  cases hbq : specBucketEq plan.periodicity now cb.last_reset_date <;> simp [hbq]

/-- C3, witness: with monthly periodicity, last reset 2025-01-31 and now
2025-02-01, the buckets differ, the counter resets to 0 and the check
passes. -/
theorem check_limit_rollover_witness :
    specBucketEq "monthly" ⟨2025, 2, 1⟩ (⟨2025, 1, 31⟩ : PyDate) = false ∧
    (check_limit monthlyRolloverBot ⟨2025, 2, 1⟩).2.conversations_count = 0 ∧
    (check_limit monthlyRolloverBot ⟨2025, 2, 1⟩).2.last_reset_date = ⟨2025, 2, 1⟩ ∧
    (check_limit monthlyRolloverBot ⟨2025, 2, 1⟩).1 = true := by
  have h := check_limit_rollover monthlyRolloverBot ⟨2025, 2, 1⟩
    { plan := some { periodicity := "monthly", max_conversations := 1000 }, active := true }
    { periodicity := "monthly", max_conversations := 1000 }
    rfl rfl rfl (by decide)
  refine ⟨by decide, (h.2.1 (by decide)).1, (h.2.1 (by decide)).2, ?_⟩
  rw [h.2.2, (h.2.1 (by decide)).1]
  decide

/-- C7 amended: `_validate_name` accepts a string iff, after trimming
surrounding whitespace, it has 2 to 79 characters, begins with a letter,
continues with letters / spaces / apostrophes / hyphens only, and its
lowercase form contains none of `http://`, `https://`, `@`,
`s.whatsapp.net`; in particular 80-character names are rejected and a bare
`http` without `://` is not banned. -/
theorem validate_name_amended_iff (s : List Char) :
    validate_name (some s) = true ↔ amendedNameAccepts s = true := by
  unfold validate_name amendedNameAccepts
  cases s with
  | nil => simp [pyStrip]
  | cons c cs =>
    simp only [List.isEmpty_cons, Bool.false_eq_true, if_false]
    generalize pyStrip (c :: cs) = n
    cases n with
    | nil => decide
    | cons d ds =>
      simp only [nameRegexFullmatch, List.length_cons]
      constructor
      · intro h
        split_ifs at h with h1 h2
        simp only [Bool.or_eq_true, decide_eq_true_eq, not_or, not_lt] at h1
        simp only [Bool.and_eq_true, decide_eq_true_eq] at h
        obtain ⟨⟨hd, hlen78⟩, htail⟩ := h
        simp only [Bool.and_eq_true, decide_eq_true_eq, Bool.not_eq_true']
        refine ⟨⟨⟨by omega, by omega⟩, ?_⟩, hd, htail⟩
        simpa using h2
      · intro h
        simp only [Bool.and_eq_true, decide_eq_true_eq, Bool.not_eq_true'] at h
        obtain ⟨⟨⟨hl2, hl79⟩, hbans⟩, hd, htail⟩ := h
        rw [if_neg, if_neg]
        · simp only [Bool.and_eq_true, decide_eq_true_eq]
          exact ⟨⟨hd, by omega⟩, htail⟩
        · simp [hbans]
        · simp only [Bool.or_eq_true, decide_eq_true_eq, not_or, not_lt]
          omega

/-- The save override never touches the token. -/
theorem instanceSaveMem_token (i : InstanceRow) : (instanceSaveMem i).token = i.token := by
  unfold instanceSaveMem; split <;> rfl

/-- The save override never touches the connected phone. -/
theorem instanceSaveMem_phone (i : InstanceRow) :
    (instanceSaveMem i).phone_connected = i.phone_connected := by
  unfold instanceSaveMem; split <;> rfl

/-- For a plan-valid owner the save override is the identity on status. -/
theorem instanceSaveMem_status_of_valid (i : InstanceRow) (h : i.ownerPlanValid = true) :
    (instanceSaveMem i).status = i.status := by
  unfold instanceSaveMem; simp [h]

/-- `sync_instance_token` returns false when the Bridge list has no entry
for the instance's session id. -/
theorem sync_find_none (inst : InstanceRow) (listOk : Bool) (data : List SessionEntry)
    (hfind : data.find? (fun s => s.sessionId == some inst.session_id) = none) :
    (sync_instance_token inst listOk (some data)).ret = false := by
  unfold sync_instance_token
  cases listOk
  · rfl
  · by_cases hsid : inst.session_id = "" <;> simp [hsid, hfind]

/-- When an entry is found, the returned boolean is exactly
`bool(new_token)`: the truthiness of the entry's token. -/
theorem sync_ret_eq (inst : InstanceRow) (data : List SessionEntry)
    (target : SessionEntry)
    (hfind : data.find? (fun s => s.sessionId == some inst.session_id) = some target)
    (hsid : inst.session_id ≠ "") :
    (sync_instance_token inst true (some data)).ret = truthyS target.token := by
  unfold sync_instance_token
  simp only [hsid, hfind, Bool.not_true, Bool.false_eq_true, if_false, if_neg, not_false_iff]
  repeat' split
  all_goals rfl

/-- After the call, both the in-memory object and the stored row carry the
entry's (truthy) token, whether or not it differed. -/
theorem sync_token_eq (inst : InstanceRow) (data : List SessionEntry)
    (target : SessionEntry)
    (hfind : data.find? (fun s => s.sessionId == some inst.session_id) = some target)
    (hsid : inst.session_id ≠ "") (htok : truthyS target.token = true) :
    (sync_instance_token inst true (some data)).db.token = target.token ∧
    (sync_instance_token inst true (some data)).mem.token = target.token := by
  unfold sync_instance_token
  simp only [hsid, hfind, Bool.not_true, Bool.false_eq_true, if_false, if_neg, not_false_iff]
  by_cases h1 : (truthyS target.token && target.token != inst.token) = true
  case neg =>
    have heq : target.token = inst.token := by
      simp only [Bool.and_eq_true, bne_iff_ne, ne_eq, not_and, not_not] at h1
      exact h1 htok
    simp only [h1, if_false, Bool.false_eq_true]
    repeat' (first | split | simp_all [djangoSavePersist, copyField, instanceSaveMem_token,
      instanceSaveMem_phone])
  case pos =>
    simp only [h1, if_true]
    repeat' (first | split | simp_all [djangoSavePersist, copyField, instanceSaveMem_token,
      instanceSaveMem_phone])

/-- When the Bridge reports a usable (truthy, non-empty after mapping)
status and the owner is plan-valid, the stored row ends up carrying it. -/
theorem sync_status_eq (inst : InstanceRow) (data : List SessionEntry)
    (target : SessionEntry) (s : String)
    (hfind : data.find? (fun x => x.sessionId == some inst.session_id) = some target)
    (hsid : inst.session_id ≠ "") (hplan : inst.ownerPlanValid = true)
    (hmap : mapNodeStatusToDjango target.status = some s) (hs : s ≠ "") :
    (sync_instance_token inst true (some data)).db.status = s := by
  unfold sync_instance_token
  simp only [hsid, hfind, Bool.not_true, Bool.false_eq_true, if_false, if_neg, not_false_iff]
  by_cases h1 : (truthyS target.token && target.token != inst.token) = true <;>
    simp only [h1, if_true, if_false, Bool.false_eq_true] <;>
    repeat' (first | split | simp_all [djangoSavePersist, copyField, instanceSaveMem,
      truthyS])

/-- When the Bridge reports a non-empty phone number, the stored row ends
up carrying it. -/
theorem sync_phone_eq (inst : InstanceRow) (data : List SessionEntry)
    (target : SessionEntry) (p : String)
    (hfind : data.find? (fun x => x.sessionId == some inst.session_id) = some target)
    (hsid : inst.session_id ≠ "") (hp : target.phoneNumber = some p) (hpne : p ≠ "") :
    (sync_instance_token inst true (some data)).db.phone_connected = some p := by
  unfold sync_instance_token
  simp only [hsid, hfind, Bool.not_true, Bool.false_eq_true, if_false, if_neg, not_false_iff]
  by_cases h1 : (truthyS target.token && target.token != inst.token) = true <;>
    simp only [h1, if_true, if_false, Bool.false_eq_true] <;>
    repeat' (first | split | simp_all [djangoSavePersist, copyField, instanceSaveMem,
      truthyS])

/-- A true return implies the list was fetched, the session id was usable
and a matching entry with a truthy token exists. -/
theorem sync_ret_true_elim (inst : InstanceRow) (listOk : Bool) (data : List SessionEntry)
    (h : (sync_instance_token inst listOk (some data)).ret = true) :
    listOk = true ∧ inst.session_id ≠ "" ∧
    ∃ target, data.find? (fun x => x.sessionId == some inst.session_id) = some target ∧
      truthyS target.token = true := by
  cases listOk
  · exact absurd h (by simp [sync_instance_token])
  · by_cases hsid : inst.session_id = ""
    · exfalso
      unfold sync_instance_token at h
      simp [hsid] at h
    · cases hfind : data.find? (fun x => x.sessionId == some inst.session_id) with
      | none =>
        exact absurd h (by rw [sync_find_none inst true data hfind]; simp)
      | some target =>
        refine ⟨rfl, hsid, target, rfl, ?_⟩
        rw [sync_ret_eq inst data target hfind hsid] at h
        exact h

/-- C4: if `sync_instance_token` returns true then afterwards the
instance's token (both in memory and as persisted) equals the token the
Bridge currently reports for its session id; when the session list has no
entry for the session id, or the entry carries no token, it returns
false; and on success the reported status (for a plan-valid owner) and
non-empty phone number are persisted as well. -/
theorem sync_instance_token_heals (inst : InstanceRow) (listOk : Bool)
    (data : List SessionEntry) :
    ((sync_instance_token inst listOk (some data)).ret = true →
      ∃ t, bridgeTokenFor data inst.session_id = some t ∧ t ≠ "" ∧
        (sync_instance_token inst listOk (some data)).db.token = some t ∧
        (sync_instance_token inst listOk (some data)).mem.token = some t) ∧
    (data.find? (fun x => x.sessionId == some inst.session_id) = none →
      (sync_instance_token inst listOk (some data)).ret = false) ∧
    (∀ target, data.find? (fun x => x.sessionId == some inst.session_id) = some target →
      truthyS target.token = false →
      (sync_instance_token inst listOk (some data)).ret = false) ∧
    (∀ target s, data.find? (fun x => x.sessionId == some inst.session_id) = some target →
      (sync_instance_token inst listOk (some data)).ret = true →
      inst.ownerPlanValid = true → mapNodeStatusToDjango target.status = some s → s ≠ "" →
      (sync_instance_token inst listOk (some data)).db.status = s) ∧
    (∀ target p, data.find? (fun x => x.sessionId == some inst.session_id) = some target →
      (sync_instance_token inst listOk (some data)).ret = true →
      target.phoneNumber = some p → p ≠ "" →
      (sync_instance_token inst listOk (some data)).db.phone_connected = some p) := by
  refine ⟨?_, ?_, ?_, ?_, ?_⟩
  · intro hret
    obtain ⟨hl, hsid, target, hfind, htok⟩ := sync_ret_true_elim inst listOk data hret
    subst hl
    have htk := sync_token_eq inst data target hfind hsid htok
    cases htv : target.token with
    | none => rw [htv] at htok; exact absurd htok (by simp [truthyS])
    | some tv =>
      refine ⟨tv, ?_, ?_, ?_, ?_⟩
      · rw [bridgeTokenFor, hfind]
        simp [htv]
      · rw [htv] at htok
        simpa [truthyS] using htok
      · rw [htk.1, htv]
      · rw [htk.2, htv]
  · intro hfind
    exact sync_find_none inst listOk data hfind
  · intro target hfind htok
    cases listOk
    · simp [sync_instance_token]
    · by_cases hsid : inst.session_id = ""
      · unfold sync_instance_token
        simp [hsid]
      · rw [sync_ret_eq inst data target hfind hsid]
        exact htok
  · intro target s hfind hret hplan hmap hs
    obtain ⟨hl, hsid, _, _, _⟩ := sync_ret_true_elim inst listOk data hret
    subst hl
    exact sync_status_eq inst data target s hfind hsid hplan hmap hs
  · intro target p hfind hret hp hpne
    obtain ⟨hl, hsid, _, _, _⟩ := sync_ret_true_elim inst listOk data hret
    subst hl
    exact sync_phone_eq inst data target p hfind hsid hp hpne

/-- C4, witness: on the concrete drifted instance the self-heal returns
true and afterwards the token equals the Bridge's current token. -/
theorem sync_instance_token_heals_witness :
    ∃ t, bridgeTokenFor syncData0 syncInst0.session_id = some t ∧ t ≠ "" ∧
      (sync_instance_token syncInst0 true (some syncData0)).db.token = some t ∧
      (sync_instance_token syncInst0 true (some syncData0)).mem.token = some t :=
  (sync_instance_token_heals syncInst0 true syncData0).1 (by decide)

/-- A message event without a truthy wamid persists nothing. -/
theorem processMessageEvent_no_wamid (instId : Nat) (data : WebhookData)
    (msgs : List MessageRow) (h : truthyS (msgWamid data) = false) :
    processMessageEvent instId data msgs = msgs := by
  unfold msgWamid at h
  unfold processMessageEvent
  simp [h]

/-- The message branch either leaves the log unchanged or appends one row
whose (truthy) wamid is the event's wire id and was not yet stored. -/
theorem processMessageEvent_cases (instId : Nat) (data : WebhookData)
    (msgs : List MessageRow) :
    processMessageEvent instId data msgs = msgs ∨
    ∃ row, row.wamid = msgWamid data ∧ truthyS row.wamid = true ∧
      msgs.any (fun m => m.wamid == row.wamid) = false ∧
      processMessageEvent instId data msgs = msgs ++ [row] := by
  unfold processMessageEvent
  dsimp only
  split
  case isTrue h =>
    simp only [Bool.and_eq_true, Bool.not_eq_true'] at h
    exact Or.inr ⟨_, rfl, h.1, h.2, rfl⟩
  case isFalse h => exact Or.inl rfl

/-- A message event whose wire id is already stored persists nothing. -/
theorem processMessageEvent_skip (instId : Nat) (data : WebhookData)
    (msgs : List MessageRow)
    (h : msgs.any (fun m => m.wamid == msgWamid data) = true) :
    processMessageEvent instId data msgs = msgs := by
  unfold msgWamid at h
  unfold processMessageEvent
  dsimp only
  split
  case isTrue h2 =>
    exfalso
    simp only [Bool.and_eq_true, Bool.not_eq_true'] at h2
    rw [h2.2] at h
    exact Bool.false_ne_true h
  case isFalse h2 => rfl

/-- Handling the same message event a second time changes nothing. -/
theorem processMessageEvent_idem (instId : Nat) (data : WebhookData)
    (msgs : List MessageRow) :
    processMessageEvent instId data (processMessageEvent instId data msgs) =
      processMessageEvent instId data msgs := by
  rcases processMessageEvent_cases instId data msgs with h | ⟨row, hw, htr, hany, heq⟩
  · rw [h, h]
  · rw [heq]
    apply processMessageEvent_skip
    rw [← hw]
    simp

/-- Appending a row whose wamid is fresh preserves wamid uniqueness. -/
theorem noDupWamid_append (msgs : List MessageRow) (row : MessageRow)
    (hd : noDupWamid msgs = true) (ht : truthyS row.wamid = true)
    (ha : msgs.any (fun m => m.wamid == row.wamid) = false) :
    noDupWamid (msgs ++ [row]) = true := by
  induction msgs with
  | nil =>
    cases hw : row.wamid with
    | none => rw [hw] at ht; exact absurd ht (by simp [truthyS])
    | some w => simp [noDupWamid, hw]
  | cons m ms ih =>
    simp only [List.any_cons, Bool.or_eq_false_iff] at ha
    simp only [noDupWamid, Bool.and_eq_true] at hd
    simp only [List.cons_append, noDupWamid, Bool.and_eq_true]
    refine ⟨?_, ih hd.2 ha.2⟩
    cases hw : m.wamid with
    | none => simp
    | some w =>
      rw [hw] at hd
      simp only [List.append_eq, List.any_append, List.any_cons, List.any_nil, Bool.or_false,
        Bool.not_eq_true', Bool.or_eq_false_iff]
      refine ⟨by simpa using hd.1, ?_⟩
      rw [hw] at ha
      cases hrw : row.wamid with
      | none => rfl
      | some w2 =>
        rw [hrw] at ha
        simp only [beq_eq_false_iff_ne, ne_eq, Option.some_inj] at ha ⊢
        exact fun he => ha.1 he.symm

/-- For a message payload, one receiver run either leaves the state
untouched or (auth ok, session resolved, owner plan-valid) appends via the
message branch, leaving the instances as they were. -/
theorem webhookPost_message_cases (ek : String) (ak : Option String) (p : WebhookPayload)
    (b : Bool) (se : Option (List SessionEntry)) (st : WebhookState)
    (htype : p.type = some "message") :
    (∃ r, webhookPost ek ak (some p) b se st = (r, st)) ∨
    ∃ i, (ak != some ek) = false ∧
      truthyS (pyOrS p.sessionId ((p.data.getD {}).sessionId)) = true ∧
      st.instances.find?
        (fun r => r.session_id == (pyOrS p.sessionId ((p.data.getD {}).sessionId)).getD "") =
        some i ∧
      i.ownerPlanValid = true ∧
      webhookPost ek ak (some p) b se st =
        (⟨200, "processed"⟩,
         { st with messages := processMessageEvent i.id (p.data.getD {}) st.messages }) := by
  unfold webhookPost
  dsimp only
  split
  case isTrue => exact Or.inl ⟨_, rfl⟩
  case isFalse hauth =>
    split
    case isTrue => exact Or.inl ⟨_, rfl⟩
    case isFalse hsid =>
      split
      case h_1 => exact Or.inl ⟨_, rfl⟩
      case h_2 i hfind =>
        split
        case isTrue => exact Or.inl ⟨_, rfl⟩
        case isFalse hplan =>
          right
          refine ⟨i, by simpa using hauth, by simpa using hsid, hfind, by simpa using hplan, ?_⟩
          have htup : (p.type == some "session-update" || p.type == some "connection.update" ||
              p.type == some "qr") = false := by simp [htype]
          have hmsg : (p.type == some "message") = true := by simp [htype]
          simp only [htup, hmsg, Bool.false_eq_true, if_false, if_true]

/-- Any receiver run leaves the message log unchanged or routes it through
the message branch. -/
theorem webhookPost_messages_eq (ek : String) (ak : Option String)
    (pl : Option WebhookPayload) (b : Bool) (se : Option (List SessionEntry))
    (st : WebhookState) :
    (webhookPost ek ak pl b se st).2.messages = st.messages ∨
    ∃ instId data, (webhookPost ek ak pl b se st).2.messages =
      processMessageEvent instId data st.messages := by
  unfold webhookPost
  dsimp only
  repeat' split
  all_goals first
    | exact Or.inl rfl
    | exact Or.inr ⟨_, _, rfl⟩

/-- C2: the receiver preserves "at most one Message row per wamid", an
inbound message event without a wamid is never persisted, and handling the
same inbound event twice leaves the log of the first run unchanged. -/
theorem webhook_wamid_unique (ek : String) (ak : Option String)
    (pl : Option WebhookPayload) (b : Bool) (se : Option (List SessionEntry))
    (st : WebhookState) (p : WebhookPayload) :
    (noDupWamid st.messages = true →
      noDupWamid (webhookPost ek ak pl b se st).2.messages = true) ∧
    (pl = some p → p.type = some "message" →
      truthyS (msgWamid (p.data.getD {})) = false →
      (webhookPost ek ak pl b se st).2.messages = st.messages) ∧
    (pl = some p → p.type = some "message" →
      (webhookPost ek ak pl b se (webhookPost ek ak pl b se st).2).2.messages =
        (webhookPost ek ak pl b se st).2.messages) := by
  refine ⟨?_, ?_, ?_⟩
  · intro hnd
    rcases webhookPost_messages_eq ek ak pl b se st with h | ⟨instId, data, h⟩
    · rw [h]; exact hnd
    · rw [h]
      rcases processMessageEvent_cases instId data st.messages with h2 | ⟨row, _, htr, hany, h2⟩
      · rw [h2]; exact hnd
      · rw [h2]; exact noDupWamid_append _ _ hnd htr hany
  · intro hp htype hwam
    subst hp
    rcases webhookPost_message_cases ek ak p b se st htype with ⟨r, h⟩ | ⟨i, _, _, _, _, h⟩
    · rw [h]
    · rw [h]
      dsimp only
      exact processMessageEvent_no_wamid _ _ _ hwam
  · intro hp htype
    subst hp
    rcases webhookPost_message_cases ek ak p b se st htype with ⟨r, h⟩ | ⟨i, hauth, hsid, hfind, hplan, h⟩
    · rw [h]
      dsimp only
      rw [h]
    · rw [h]
      rcases webhookPost_message_cases ek ak p b se
          { st with messages := processMessageEvent i.id (p.data.getD {}) st.messages }
          htype with ⟨r2, h2⟩ | ⟨i2, _, _, hfind2, _, h2⟩
      · rw [h2]
      · rw [h2]
        dsimp only
        have hfind2x : st.instances.find?
            (fun r => r.session_id == (pyOrS p.sessionId ((p.data.getD {}).sessionId)).getD "") =
            some i2 := hfind2
        rw [hfind] at hfind2x
        injection hfind2x with hii
        rw [← hii]
        exact processMessageEvent_idem i.id (p.data.getD {}) st.messages

/-- C2, witness: on an empty log, one concrete inbound message keeps the
wamid-uniqueness invariant and a second delivery of the same event adds
nothing. -/
theorem webhook_wamid_unique_witness :
    noDupWamid (webhookPost "k" (some "k") (some whMsgPayload) true none whStateA).2.messages =
      true ∧
    (webhookPost "k" (some "k") (some whMsgPayload) true none
        (webhookPost "k" (some "k") (some whMsgPayload) true none whStateA).2).2.messages =
      (webhookPost "k" (some "k") (some whMsgPayload) true none whStateA).2.messages :=
  ⟨(webhook_wamid_unique "k" (some "k") (some whMsgPayload) true none whStateA
      whMsgPayload).1 (by decide),
   (webhook_wamid_unique "k" (some "k") (some whMsgPayload) true none whStateA
      whMsgPayload).2.2 rfl rfl⟩

/-- The round-trip status update, in isolation: `{status: open, token: T}`
turns the found instance into a CONNECTED row carrying token `T`. -/
theorem processStatusEvent_connOpen (i : InstanceRow) (T : String) (b : Bool)
    (se : Option (List SessionEntry)) (hT : T ≠ "") (hplan : i.ownerPlanValid = true) :
    processStatusEvent i (connOpenData T) b se =
      { i with status := "CONNECTED", token := some T } := by
  unfold processStatusEvent connOpenData
  dsimp only
  simp only [truthyS, pyOrS, instanceSaveMem]
  simp [hT, hplan]

/-- C5: for a plan-valid owner, a `connection.update {status: open,
token: T}` webhook responds "processed" and afterwards every stored row of
that instance reads CONNECTED with token `T`; the message log is
untouched. -/
theorem webhook_connection_open (ek : String) (st : WebhookState) (sid T : String)
    (b : Bool) (se : Option (List SessionEntry)) (i : InstanceRow)
    (hfind : st.instances.find? (fun r => r.session_id == sid) = some i)
    (hplan : i.ownerPlanValid = true) (hT : T ≠ "") (hsid : sid ≠ "") :
    (webhookPost ek (some ek) (some (connOpenPayload sid T)) b se st).1 = ⟨200, "processed"⟩ ∧
    ((webhookPost ek (some ek) (some (connOpenPayload sid T)) b se st).2.instances.all
      (fun r => r.id != i.id || (r.status == "CONNECTED" && r.token == some T))) = true ∧
    (webhookPost ek (some ek) (some (connOpenPayload sid T)) b se st).2.messages =
      st.messages := by
  unfold webhookPost connOpenPayload
  dsimp only
  have hauth : ((some ek : Option String) != some ek) = false := by simp
  have htr : truthyS (pyOrS (some sid) ((connOpenData T).sessionId)) = true := by
    simp [pyOrS, truthyS, hsid, connOpenData]
  have hge : (pyOrS (some sid) ((connOpenData T).sessionId)).getD "" = sid := by
    simp [pyOrS, truthyS, hsid, connOpenData]
  have e1 : ((some "connection.update" : Option String) == some "message") = false := by decide
  have e2 : ((some "connection.update" : Option String) == some "session-update") = false := by
    decide
  have e3 : ((some "connection.update" : Option String) == some "connection.update") = true := by
    decide
  have e4 : ((some "connection.update" : Option String) == some "qr") = false := by decide
  simp only [Option.getD_some, hauth, Bool.false_eq_true, if_false, htr, Bool.not_true, hge,
    hfind, hplan, Bool.not_false, if_true, e1, e2, e3, e4, Bool.false_or, Bool.or_false]
  rw [processStatusEvent_connOpen i T b se hT hplan]
  refine ⟨trivial, ?_, trivial⟩
  simp only [List.all_eq_true, List.mem_map]
  rintro x ⟨r0, hr0, rfl⟩
  by_cases hid : (r0.id == ({ i with status := "CONNECTED", token := some T } : InstanceRow).id) = true
  · simp [hid]
  · simp [hid]
    exact Or.inl (by simpa using hid)

/-- C5, witness: the concrete plan-valid instance ends CONNECTED with the
delivered token. -/
theorem webhook_connection_open_witness :
    (webhookPost "k" (some "k") (some (connOpenPayload "sess_a" "TOK")) true none whStateA).1 =
      ⟨200, "processed"⟩ ∧
    ((webhookPost "k" (some "k") (some (connOpenPayload "sess_a" "TOK")) true none
        whStateA).2.instances.all
      (fun r => r.id != whInstA.id || (r.status == "CONNECTED" && r.token == some "TOK"))) =
      true ∧
    (webhookPost "k" (some "k") (some (connOpenPayload "sess_a" "TOK")) true none
        whStateA).2.messages = whStateA.messages :=
  webhook_connection_open "k" whStateA "sess_a" "TOK" true none whInstA (by decide) rfl
    (by decide) (by decide)

/-- C9: an authenticated event whose session resolves to an instance of a
tenant that is not plan-valid yields HTTP 200 "plan_expired_ignored" and
the state is returned exactly as it was. -/
theorem webhook_plan_expired_frame (ek : String) (ak : Option String)
    (pl : Option WebhookPayload) (b : Bool) (se : Option (List SessionEntry))
    (st : WebhookState) (p : WebhookPayload) (sid : String) (i : InstanceRow)
    (hak : ak = some ek) (hp : pl = some p)
    (hsidv : pyOrS p.sessionId ((p.data.getD {}).sessionId) = some sid)
    (hs : sid ≠ "")
    (hfind : st.instances.find? (fun r => r.session_id == sid) = some i)
    (hplan : i.ownerPlanValid = false) :
    webhookPost ek ak pl b se st = (⟨200, "plan_expired_ignored"⟩, st) := by
  subst hp
  subst hak
  unfold webhookPost
  dsimp only
  have hauth : ((some ek : Option String) != some ek) = false := by simp
  have htr : truthyS (some sid) = true := by simp [truthyS, hs]
  simp only [hauth, Bool.false_eq_true, if_false, hsidv, htr, Bool.not_true, Option.getD_some,
    hfind, hplan, Bool.not_false, if_true]

/-- C9, witness: a `qr` event for the expired tenant's session changes
nothing and answers "plan_expired_ignored". -/
theorem webhook_plan_expired_frame_witness :
    webhookPost "k" (some "k") (some whQrPayload) true none whStateB =
      (⟨200, "plan_expired_ignored"⟩, whStateB) :=
  webhook_plan_expired_frame "k" (some "k") (some whQrPayload) true none whStateB
    whQrPayload "sess_b" whInstB rfl rfl (by decide) (by decide) (by decide) rfl

end Bumbbe
